import Mathlib

/-!
Verification development for the simple-voice-websocket server.

Shallow embedding of the orchestration core in `main.py` (the
`websocket_endpoint` per-connection loop, the `ConnectionManager`
session registry, `transcribe_audio`, `get_ai_response_async`,
`generate_speech`) and of the MongoDB-backed history store in
`database.py` (`add_message`, `get_conversation_history`).

External ports (Whisper transcription, GPT completion, TTS synthesis,
base64 codec, context fetch) are modelled as fields of an `Env` record:
each is a function whose `Except` result says whether the underlying
call returned normally or raised. The Python handler's behaviour is a
pure function of the environment and the inbound frame; the list of
port invocations performed is returned as a trace so that claims about
"port X is not called" can be stated.
-/

namespace VoiceWS

/-- JSON values, as produced by `json.loads`. Numbers are modelled as
integers (no claim depends on float payloads); object fields are an
association list assumed key-unique, matching a parsed JSON object. -/
inductive Json where
  | null : Json
  | bool (b : Bool) : Json
  | num (n : Int) : Json
  | str (s : String) : Json
  | arr (elems : List Json) : Json
  | obj (fields : List (String × Json)) : Json
deriving Inhabited

/-- Python truthiness of a JSON-decoded value (`if x:`). -/
def Json.truthy : Json → Bool
  | .null => false
  | .bool b => b
  | .num n => n != 0
  | .str s => s != ""
  | .arr elems => !elems.isEmpty
  | .obj fields => !fields.isEmpty

/-- Whether the value is a JSON object (a Python `dict`, which has `.get`). -/
def Json.isObj : Json → Bool
  | .obj _ => true
  | _ => false

/-- Python type name of the decoded value, used in exception messages. -/
def Json.pyType : Json → String
  | .null => "NoneType"
  | .bool _ => "bool"
  | .num _ => "int"
  | .str _ => "str"
  | .arr _ => "list"
  | .obj _ => "dict"

/-- Whether `x[:50]` on the value returns rather than raising `TypeError`
(Python strings and lists are sliceable). -/
def Json.sliceable : Json → Bool
  | .str _ => true
  | .arr _ => true
  | _ => false

/-- Python `str.startswith`, over the character sequence
(kernel-reducible, unlike `String.startsWith`). -/
def pyStartsWith (s p : String) : Bool := List.isPrefixOf p.data s.data

/-- Python `str.strip()` with no argument: drop whitespace at both ends
(kernel-reducible, unlike `String.trim`). -/
def pyStrip (s : String) : String :=
  String.mk (((s.data.dropWhile Char.isWhitespace).reverse.dropWhile Char.isWhitespace).reverse)

/-- `d.get(k)` on a parsed JSON object: `none` models Python `None`. -/
def getField (fields : List (String × Json)) (k : String) : Option Json :=
  List.lookup k fields

/-- Python `message_type == s` where `message_type` came from `.get("type")`:
true exactly when the value is the string `s` (equality of a non-string
JSON value with a Python string is `False`, and `None == s` is `False`). -/
def isTypeTag (v : Option Json) (s : String) : Bool :=
  match v with
  | some (.str t) => t == s
  | _ => false

/-- The external port invocations the handler can perform, recorded as a
trace. `contextCall` is `db.get_conversation_context`, `appendCall` is
`db.add_message`, the others are the three OpenAI calls. -/
inductive PortCall where
  | transcribeCall : PortCall
  | contextCall : PortCall
  | completeCall : PortCall
  | appendCall : PortCall
  | synthesizeCall : PortCall
deriving Repr, DecidableEq

/-- Behaviour of the external collaborators for one exchange.
`Except.error e` models the underlying library call raising an
exception whose `str(e)` is `e`. `clientAvailable` models
`client is not None` (the module-level OpenAI client). -/
structure Env where
  clientAvailable : Bool
  whisper : List Nat → Except String String
  complete : List (String × Json) → Except String String
  tts : String → Except String (List Nat)
  contextFetch : String → Except String String
  b64decode : String → Except String (List Nat)
  b64encode : List Nat → String
  now : Nat

/-- `transcribe_audio` (main.py lines 83-118): returns the Whisper
transcription stripped, or an apology string when the client is missing
or the call raises. Never raises. The trace records whether the
transcription port was consulted. -/
def transcribe_audio (env : Env) (audio_data : List Nat) : String × List PortCall :=
  if env.clientAvailable = false then
    ("I'm sorry, the speech recognition service is not available right now.", [])
  else
    match env.whisper audio_data with
    | .ok t => (pyStrip t, [.transcribeCall])
    | .error e => ("I'm sorry, I couldn't understand the audio: " ++ e, [.transcribeCall])

/-- The system prompt of `get_ai_response_async` (main.py lines 130-135). -/
def systemPrompt : String :=
  "You are a helpful voice assistant. Keep your responses concise and conversational, as they will be spoken aloud. Limit responses to 2-3 sentences maximum. Remember previous conversations to provide contextual responses."

/-- The optional context system message (main.py lines 138-144): fetched
when `session_id` is truthy; a fetch failure or empty context adds
nothing. -/
def contextMsgs (env : Env) (session_id : String) : List (String × Json) :=
  if session_id != "" then
    match env.contextFetch session_id with
    | .ok c => if c != "" then [("system", Json.str c)] else []
    | .error _ => []
  else []

/-- The messages array passed to the completion call
(main.py lines 130-147). -/
def buildMessages (env : Env) (session_id : String) (user_message : Json) : List (String × Json) :=
  [("system", Json.str systemPrompt)] ++ contextMsgs env session_id ++ [("user", user_message)]

/-- `get_ai_response_async` (main.py lines 120-160). The user message is
kept as a JSON value because the endpoint passes `message_data.get("message")`
unchecked; a non-sliceable value makes the logging f-string raise
`TypeError` inside the try, which is caught and turned into the apology
(the embedded message text is simplified to the exception class).
On a completion failure the function returns
"I'm sorry, I encountered an error: " followed by the cause - it does
NOT raise and does NOT produce an error event itself. -/
def get_ai_response_async (env : Env) (user_message : Json) (session_id : String) :
    String × List PortCall :=
  if env.clientAvailable = false then
    ("I'm sorry, the AI service is not available right now. Please check that your OpenAI API key is configured correctly.", [])
  else if user_message.sliceable = false then
    ("I'm sorry, I encountered an error: TypeError", [])
  else
    let ctxCalls : List PortCall := if session_id != "" then [.contextCall] else []
    ((match env.complete (buildMessages env session_id user_message) with
      | .ok t => pyStrip t
      | .error e => "I'm sorry, I encountered an error: " ++ e),
     ctxCalls ++ [.completeCall])

/-- `generate_speech` (main.py lines 162-182): empty bytes when the
client is missing or the TTS call raises; never raises. -/
def generate_speech (env : Env) (text : String) : List Nat × List PortCall :=
  if env.clientAvailable = false then ([], [])
  else
    ((match env.tts text with
      | .ok b => b
      | .error _ => []),
     [.synthesizeCall])

/-- One serialized outbound frame. Optional fields are absent (`none`)
when the Python dict literal omits the key; the `error` frames built for
JSON decode errors and audio-processing exceptions carry no timestamp. -/
structure Outbound where
  type : String
  transcription : Option String
  message : Option String
  audio : Option String
  session_id : String
  timestamp : Option Nat
deriving Repr, DecidableEq

/-- Error frame with the given message and optional timestamp. -/
def errorFrame (msg : String) (sid : String) (ts : Option Nat) : Outbound :=
  { type := "error", transcription := none, message := some msg,
    audio := none, session_id := sid, timestamp := ts }

/-- One inbound frame, after the `json.loads` attempt: `malformed` is a
text that raises `JSONDecodeError`, `frame j` a successful parse. -/
inductive Inbound where
  | malformed : Inbound
  | frame (j : Json) : Inbound

/-- How processing one frame ends: `ok` means the loop proceeds to await
the next frame; `crash e` means an exception of class `e` escaped the
handler body (it is not caught by `except WebSocketDisconnect`, so the
connection task dies). -/
inductive StepOutcome where
  | ok : StepOutcome
  | crash (exc : String) : StepOutcome
deriving Repr, DecidableEq

def StepOutcome.isCrash : StepOutcome → Bool
  | .ok => false
  | .crash _ => true

/-- Result of processing one inbound frame: frames sent, ports invoked
(in call order), and whether the loop survives. -/
structure StepResult where
  sent : List Outbound
  calls : List PortCall
  outcome : StepOutcome
deriving Repr, DecidableEq

/-- The body of the `while True` receive loop of `websocket_endpoint`
(main.py lines 190-293) for one inbound frame.

- `json.JSONDecodeError` is caught and answered with an "Invalid JSON
  format" error frame (lines 287-293).
- A parse result that is not a dict raises `AttributeError` at
  `message_data.get("type")` (line 195); only `JSONDecodeError` is
  caught, so the exception escapes the loop (modelled as `crash`).
- `audio_data` frames: an untruthy `audio` value is silently ignored;
  otherwise the whole block runs under `except Exception` (lines
  201-249), where a base64 decode failure (or a non-string `audio`
  value, a `TypeError` in `b64decode`) yields an "Error processing
  audio" frame. A transcription that is empty or starts with
  "I'm sorry" yields an error frame carrying the transcription text and
  nothing further runs; otherwise completion, history append (result
  ignored, lines 213-216) and synthesis run and an `ai_response` frame
  is sent.
- `voice_message` frames: an untruthy `message` value is silently
  ignored; otherwise completion, history append (result ignored) and
  synthesis run and an `ai_response` frame without `transcription` is
  sent.
- `ping` frames are answered with a `pong` frame.
- Any other `type` value falls through every branch: nothing is sent. -/
def handleFrame (env : Env) (session_id : String) (inp : Inbound) : StepResult :=
  match inp with
  | .malformed =>
      { sent := [errorFrame "Invalid JSON format" session_id none],
        calls := [], outcome := .ok }
  | .frame (Json.obj fields) =>
      let message_type := getField fields "type"
      if isTypeTag message_type "audio_data" then
        let audio_base64 := (getField fields "audio").getD (Json.str "")
        if audio_base64.truthy then
          match (match audio_base64 with
                 | Json.str s => env.b64decode s
                 | _ => Except.error "TypeError") with
          | .error e =>
              { sent := [errorFrame ("Error processing audio: " ++ e) session_id none],
                calls := [], outcome := .ok }
          | .ok audio_data =>
              let tr := transcribe_audio env audio_data
              if tr.1 != "" && !(pyStartsWith tr.1 "I'm sorry") then
                let ai := get_ai_response_async env (Json.str tr.1) session_id
                let sp := generate_speech env ai.1
                let speech_base64 := if sp.1.isEmpty = false then env.b64encode sp.1 else ""
                { sent := [{ type := "ai_response", transcription := some tr.1,
                             message := some ai.1, audio := some speech_base64,
                             session_id := session_id, timestamp := some env.now }],
                  calls := tr.2 ++ ai.2 ++ [.appendCall] ++ sp.2,
                  outcome := .ok }
              else
                { sent := [{ type := "error", transcription := none,
                             message := some tr.1, audio := none,
                             session_id := session_id, timestamp := some env.now }],
                  calls := tr.2, outcome := .ok }
        else
          { sent := [], calls := [], outcome := .ok }
      else if isTypeTag message_type "voice_message" then
        let user_message := (getField fields "message").getD (Json.str "")
        if user_message.truthy then
          let ai := get_ai_response_async env user_message session_id
          let sp := generate_speech env ai.1
          let speech_base64 := if sp.1.isEmpty = false then env.b64encode sp.1 else ""
          { sent := [{ type := "ai_response", transcription := none,
                       message := some ai.1, audio := some speech_base64,
                       session_id := session_id, timestamp := some env.now }],
            calls := ai.2 ++ [.appendCall] ++ sp.2,
            outcome := .ok }
        else
          { sent := [], calls := [], outcome := .ok }
      else if isTypeTag message_type "ping" then
        { sent := [{ type := "pong", transcription := none, message := none,
                     audio := none, session_id := session_id, timestamp := some env.now }],
          calls := [], outcome := .ok }
      else
        { sent := [], calls := [], outcome := .ok }
  | .frame j =>
      { sent := [], calls := [],
        outcome := .crash ("AttributeError: " ++ j.pyType) }

/-- What the transport delivers to the loop: a received text frame, or
the disconnect signal (`WebSocketDisconnect` raised by `receive_text`). -/
inductive ConnEvent where
  | recv (i : Inbound) : ConnEvent
  | disconnect : ConnEvent

/-- How the per-connection loop ends on a finite event trace. -/
inductive LoopEnd where
  | awaiting : LoopEnd
  | disconnected : LoopEnd
  | crashed (exc : String) : LoopEnd
deriving Repr, DecidableEq

/-- The `while True` loop of `websocket_endpoint` over a finite trace of
transport events: frames sent, and how the loop ended. `disconnect`
raises `WebSocketDisconnect`, caught at lines 295-296 (normal end);
a `crash` step outcome ends the task abnormally. -/
def runLoop (env : Env) (session_id : String) : List ConnEvent → List Outbound × LoopEnd
  | [] => ([], .awaiting)
  | .disconnect :: _ => ([], .disconnected)
  | .recv i :: rest =>
      let r := handleFrame env session_id i
      match r.outcome with
      | .crash e => (r.sent, .crashed e)
      | .ok =>
          let rest' := runLoop env session_id rest
          (r.sent ++ rest'.1, rest'.2)

/-! ## Session registry (`ConnectionManager`, main.py lines 56-79)

Connections (FastAPI `WebSocket` objects) are modelled as `Nat` handles;
`active_connections` is the Python list, `client_sessions` the dict as a
key-unique association list. -/

/-- `list.remove(x)`: removes the first occurrence, or raises
`ValueError` (`none`) when `x` is absent. -/
def removeFirst : List Nat → Nat → Option (List Nat)
  | [], _ => none
  | x :: xs, y => if x = y then some xs else (removeFirst xs y).map (fun l => x :: l)

structure ConnectionManager where
  active_connections : List Nat
  client_sessions : List (Nat × String)
deriving Repr, DecidableEq

/-- `ConnectionManager.connect` (lines 61-68): accept is transport-side;
the registry appends the connection and records the fresh session id
(`dict` assignment: overwrite if the key is somehow present). -/
def ConnectionManager.connect (m : ConnectionManager) (ws : Nat) (session_id : String) :
    ConnectionManager × String :=
  let sessions :=
    if (List.lookup ws m.client_sessions).isSome then
      m.client_sessions.map (fun p => if p.1 = ws then (ws, session_id) else p)
    else m.client_sessions ++ [(ws, session_id)]
  ({ active_connections := m.active_connections ++ [ws], client_sessions := sessions },
   session_id)

/-- `ConnectionManager.disconnect` (lines 70-73):
`self.active_connections.remove(websocket)` first - this raises
`ValueError` when the connection is not in the list, and then
`client_sessions.pop(websocket, None)` never runs. On success the
session mapping is removed (pop with default: no error if absent). -/
def ConnectionManager.disconnect (m : ConnectionManager) (ws : Nat) :
    Except String ConnectionManager :=
  match removeFirst m.active_connections ws with
  | none => Except.error "ValueError"
  | some l =>
      Except.ok { active_connections := l,
                  client_sessions := m.client_sessions.filter (fun p => p.1 != ws) }

/-- `ConnectionManager.get_session_id` (lines 78-79):
`self.client_sessions.get(websocket, "unknown")` - total, returning the
sentinel string for an unregistered connection. -/
def ConnectionManager.get_session_id (m : ConnectionManager) (ws : Nat) : String :=
  (List.lookup ws m.client_sessions).getD "unknown"

/-! ## History store (`MongoDatabase`, database.py)

The `conversations` collection is an association list from `session_id`
to the `messages` array of that document, in insertion order;
`update_one` touches the first matching document and `find_one` returns
the first match, so first-match semantics are used throughout. -/

/-- One element of a conversation's `messages` array
(database.py lines 55-60). -/
structure MessageEntry where
  timestamp : Nat
  user_message : String
  ai_response : String
  transcription : Option String
deriving Repr, DecidableEq

abbrev MongoDatabase := List (String × List MessageEntry)

/-- `update_one({"session_id": sid}, {"$push": {"messages": e}}, upsert=True)`:
push onto the first matching document, or insert a fresh document whose
`messages` array is `[e]` when none matches. -/
def upsertPush : MongoDatabase → String → MessageEntry → MongoDatabase
  | [], sid, e => [(sid, [e])]
  | p :: ps, sid, e =>
      if p.1 = sid then (p.1, p.2 ++ [e]) :: ps else p :: upsertPush ps sid e

/-- `MongoDatabase.add_message` (database.py lines 53-71). -/
def MongoDatabase.add_message (db : MongoDatabase) (session_id : String)
    (user_message : String) (ai_response : String) (transcription : Option String)
    (now : Nat) : MongoDatabase :=
  upsertPush db session_id
    { timestamp := now, user_message := user_message,
      ai_response := ai_response, transcription := transcription }

/-- `{"messages": {"$slice": -limit}}`: the last `limit` elements of the
array (all of them when `limit` exceeds the length, none when
`limit = 0`). -/
def sliceLast (l : List MessageEntry) (limit : Nat) : List MessageEntry :=
  if limit = 0 then [] else l.drop (l.length - limit)

/-- `MongoDatabase.get_conversation_history` (database.py lines 73-82):
`find_one` on the session id with the `$slice` projection; a missing
document yields `[]`. -/
def MongoDatabase.get_conversation_history (db : MongoDatabase) (session_id : String)
    (limit : Nat) : List MessageEntry :=
  match List.lookup session_id db with
  | some msgs => sliceLast msgs limit
  | none => []

/-! ## Concrete environments and frames for witnesses and counterexamples -/

/-- A fully healthy environment: the client is configured and every
port call succeeds. -/
def envBase : Env :=
  { clientAvailable := true,
    whisper := fun _ => Except.ok "hello there",
    complete := fun _ => Except.ok "Hi!",
    tts := fun _ => Except.ok [1, 2, 3],
    contextFetch := fun _ => Except.ok "",
    b64decode := fun _ => Except.ok [0, 1],
    b64encode := fun _ => "QUFB",
    now := 42 }

/-- `envBase` with a completion call that raises. -/
def envCfail : Env := { envBase with complete := fun _ => Except.error "boom" }

/-- `envBase` with a transcription result that is the apology sentinel. -/
def envApology : Env :=
  { envBase with whisper := fun _ => Except.ok "I'm sorry, I cannot help with that." }

/-- `envBase` with a synthesis call that returns empty bytes. -/
def envNoSpeech : Env := { envBase with tts := fun _ => Except.ok [] }

/-- The canonical text frame used in concrete runs. -/
def voiceHiFrame : Inbound :=
  Inbound.frame (Json.obj [("type", Json.str "voice_message"), ("message", Json.str "Hi")])

/-- The canonical audio frame used in concrete runs. -/
def audioFrame : Inbound :=
  Inbound.frame (Json.obj [("type", Json.str "audio_data"), ("audio", Json.str "QQ==")])

/-! ## Helper lemmas -/

/-- After an upserting push, the first document for the session holds the
old messages array (empty if the document was created) with the entry
appended. -/
theorem lookup_upsertPush (db : MongoDatabase) (sid : String) (e : MessageEntry) :
    List.lookup sid (upsertPush db sid e)
      = some (((List.lookup sid db).getD []) ++ [e]) := by
  induction db with
  | nil => simp [upsertPush]
  | cons p ps ih =>
      obtain ⟨k, v⟩ := p
      by_cases h : k = sid
      · simp [upsertPush, h]
      · have hne : (sid == k) = false := beq_eq_false_iff_ne.mpr (Ne.symm h)
        simp [upsertPush, h, List.lookup, hne, ih]

/-- The `$slice: -k` projection of an array ending in `e` still ends in
`e` whenever `k ≥ 1`. -/
theorem getLast?_sliceLast (l : List MessageEntry) (e : MessageEntry) (k : Nat)
    (hk : 1 ≤ k) : (sliceLast (l ++ [e]) k).getLast? = some e := by
  have hk0 : k ≠ 0 := Nat.one_le_iff_ne_zero.mp hk
  unfold sliceLast
  rw [if_neg hk0, List.drop_append_eq_append_drop]
  have hle : (l ++ [e]).length - k ≤ l.length := by
    simp only [List.length_append, List.length_cons, List.length_nil]
    omega
  rw [Nat.sub_eq_zero_of_le hle]
  simp [List.getLast?_concat]

/-- `list.remove` finds nothing when the element is absent. -/
theorem removeFirst_eq_none (l : List Nat) (y : Nat) (h : y ∉ l) :
    removeFirst l y = none := by
  induction l with
  | nil => rfl
  | cons x xs ih =>
      have hxy : ¬(x = y) := fun hh => h (hh ▸ List.mem_cons_self x xs)
      have hy : y ∉ xs := fun hm => h (List.mem_cons_of_mem _ hm)
      simp [removeFirst, hxy, ih hy]

/-- `transcribe_audio` consults at most the transcription port. -/
theorem transcribe_audio_trace (env : Env) (b : List Nat) :
    (transcribe_audio env b).2 = [] ∨
    (transcribe_audio env b).2 = [PortCall.transcribeCall] := by
  unfold transcribe_audio
  split
  · exact Or.inl rfl
  · split <;> exact Or.inr rfl

/-! ## Claim theorems -/

/-- **C9**: for every store, session identifier `s`, exchange and `k ≥ 1`,
`add_message` followed by `get_conversation_history` with limit `k`
yields a sequence whose last (most recent, the ordering being
oldest-first) entry is the appended exchange. -/
theorem append_then_recent_includes_last (db : MongoDatabase) (s um ar : String)
    (tr : Option String) (now k : Nat) (hk : 1 ≤ k) :
    (MongoDatabase.get_conversation_history
        (MongoDatabase.add_message db s um ar tr now) s k).getLast?
      = some { timestamp := now, user_message := um, ai_response := ar,
               transcription := tr } := by
  unfold MongoDatabase.get_conversation_history MongoDatabase.add_message
  rw [lookup_upsertPush]
  exact getLast?_sliceLast _ _ _ hk

/-- Witness for C9 at a concrete store, session and limit. -/
theorem append_then_recent_includes_last_witness :
    1 ≤ 1 ∧
    (MongoDatabase.get_conversation_history
        (MongoDatabase.add_message [] "s" "u" "a" none 7) "s" 1).getLast?
      = some { timestamp := 7, user_message := "u", ai_response := "a",
               transcription := none } :=
  ⟨by decide, append_then_recent_includes_last [] "s" "u" "a" none 7 1 (by decide)⟩

/-- **C5**: a frame that is not parseable as JSON produces exactly one
outbound `error` frame, carrying the session id of the connection, and
the loop goes on to process the remaining events unchanged. -/
theorem malformed_frame_one_error (env : Env) (sid : String) (rest : List ConnEvent) :
    runLoop env sid (ConnEvent.recv Inbound.malformed :: rest)
      = (errorFrame "Invalid JSON format" sid none :: (runLoop env sid rest).1,
         (runLoop env sid rest).2) := by
  simp [runLoop, handleFrame]

/-- **C6**: a parsed JSON-object frame whose `type` field is a string
other than `audio_data`, `voice_message` and `ping` produces no outbound
frame, no port call, and leaves the loop ready for the next frame. -/
theorem unrecognized_type_no_frame (env : Env) (sid : String)
    (fields : List (String × Json)) (t : String)
    (ht : getField fields "type" = some (Json.str t))
    (h1 : t ≠ "audio_data") (h2 : t ≠ "voice_message") (h3 : t ≠ "ping") :
    handleFrame env sid (Inbound.frame (Json.obj fields))
      = { sent := [], calls := [], outcome := StepOutcome.ok } := by
  simp [handleFrame, ht, isTypeTag, h1, h2, h3]

/-- Witness for C6 at a concrete frame of type "hello". -/
theorem unrecognized_type_no_frame_witness :
    getField [("type", Json.str "hello")] "type" = some (Json.str "hello") ∧
    handleFrame envBase "sid0" (Inbound.frame (Json.obj [("type", Json.str "hello")]))
      = { sent := [], calls := [], outcome := StepOutcome.ok } :=
  ⟨rfl, unrecognized_type_no_frame envBase "sid0" _ "hello" rfl
    (by decide) (by decide) (by decide)⟩

/-- **C7** (amended): unregistering a connection that is not in the
active list is not a no-op - `active_connections.remove` raises
`ValueError`; only the session-map removal half of `disconnect` is
written idempotently (`pop` with a default), and it is never reached. -/
theorem disconnect_absent_raises (m : ConnectionManager) (ws : Nat)
    (h : ws ∉ m.active_connections) :
    m.disconnect ws = Except.error "ValueError" := by
  unfold ConnectionManager.disconnect
  rw [removeFirst_eq_none _ _ h]

/-- Witness for the amended C7 on the empty registry. -/
theorem disconnect_absent_raises_witness :
    (0 : Nat) ∉ (ConnectionManager.mk [] []).active_connections ∧
    (ConnectionManager.mk [] []).disconnect 0 = Except.error "ValueError" :=
  ⟨by decide, disconnect_absent_raises (ConnectionManager.mk [] []) 0 (by decide)⟩

/-- Counterexample to C7 as stated: on the empty registry (the
connection has already been removed), `disconnect` raises `ValueError`
instead of being a no-op. -/
theorem disconnect_absent_raises_cex :
    (ConnectionManager.mk [] []).disconnect 0 = Except.error "ValueError" := by
  rfl

/-- **C8** (amended): the reverse lookup of a connection with no session
mapping does not fail - it succeeds with the sentinel string
"unknown". -/
theorem get_session_id_unregistered (m : ConnectionManager) (ws : Nat)
    (h : List.lookup ws m.client_sessions = none) :
    m.get_session_id ws = "unknown" := by
  unfold ConnectionManager.get_session_id
  rw [h]
  rfl

/-- Witness for the amended C8 on the empty registry. -/
theorem get_session_id_unregistered_witness :
    List.lookup 3 (ConnectionManager.mk [] []).client_sessions = none ∧
    (ConnectionManager.mk [] []).get_session_id 3 = "unknown" :=
  ⟨rfl, get_session_id_unregistered (ConnectionManager.mk [] []) 3 rfl⟩

/-- Counterexample to C8 as stated: a never-registered connection's
lookup succeeds with the value "unknown"; there is no NotFound
outcome. -/
theorem get_session_id_unregistered_cex :
    List.lookup 3 (ConnectionManager.mk [] []).client_sessions = none ∧
    (ConnectionManager.mk [] []).get_session_id 3 = "unknown" := by
  constructor
  · rfl
  · decide

/-- **C3**: an `audio_data` frame whose decoded audio transcribes to an
empty string or to a text starting with the reserved apology sentinel
yields exactly one `error` frame carrying that transcription text, and
neither the completion port, the synthesis port nor the history append
is invoked. -/
theorem failed_transcription_single_error (env : Env) (sid : String)
    (fields : List (String × Json)) (a : String) (bytes : List Nat)
    (ht : getField fields "type" = some (Json.str "audio_data"))
    (ha : getField fields "audio" = some (Json.str a))
    (hne : a ≠ "")
    (hdec : env.b64decode a = Except.ok bytes)
    (hfail : (transcribe_audio env bytes).1 = "" ∨
             pyStartsWith (transcribe_audio env bytes).1 "I'm sorry" = true) :
    handleFrame env sid (Inbound.frame (Json.obj fields))
      = { sent := [{ type := "error", transcription := none,
                     message := some (transcribe_audio env bytes).1, audio := none,
                     session_id := sid, timestamp := some env.now }],
          calls := (transcribe_audio env bytes).2, outcome := StepOutcome.ok } ∧
    PortCall.completeCall ∉ (handleFrame env sid (Inbound.frame (Json.obj fields))).calls ∧
    PortCall.synthesizeCall ∉ (handleFrame env sid (Inbound.frame (Json.obj fields))).calls ∧
    PortCall.appendCall ∉ (handleFrame env sid (Inbound.frame (Json.obj fields))).calls := by
  have hcond : ((transcribe_audio env bytes).1 != "" &&
      !(pyStartsWith (transcribe_audio env bytes).1 "I'm sorry")) = false := by
    rcases hfail with h | h <;> simp [h]
  have hmain : handleFrame env sid (Inbound.frame (Json.obj fields))
      = { sent := [{ type := "error", transcription := none,
                     message := some (transcribe_audio env bytes).1, audio := none,
                     session_id := sid, timestamp := some env.now }],
          calls := (transcribe_audio env bytes).2, outcome := StepOutcome.ok } := by
    simp [handleFrame, ht, ha, isTypeTag, Json.truthy, hne, hdec, hcond]
  refine ⟨hmain, ?_, ?_, ?_⟩ <;> rw [hmain] <;>
    rcases transcribe_audio_trace env bytes with h | h <;> simp [h]

/-- Witness for C3: a transcription returning the apology sentinel
yields one error frame carrying it, with only the transcription port in
the trace. -/
theorem failed_transcription_single_error_witness :
    envApology.b64decode "QQ==" = Except.ok [0, 1] ∧
    pyStartsWith (transcribe_audio envApology [0, 1]).1 "I'm sorry" = true ∧
    handleFrame envApology "sid0"
      (Inbound.frame (Json.obj [("type", Json.str "audio_data"), ("audio", Json.str "QQ==")]))
      = { sent := [{ type := "error", transcription := none,
                     message := some "I'm sorry, I cannot help with that.", audio := none,
                     session_id := "sid0", timestamp := some 42 }],
          calls := [PortCall.transcribeCall], outcome := StepOutcome.ok } :=
  ⟨rfl, by decide, by
    have h := (failed_transcription_single_error envApology "sid0"
      [("type", Json.str "audio_data"), ("audio", Json.str "QQ==")] "QQ==" [0, 1]
      rfl rfl (by decide) rfl (Or.inr (by decide))).1
    rw [h]
    rfl⟩

/-- **C10**: an `audio_data` frame whose `audio` field is missing or the
empty string, and a `voice_message` frame whose `message` field is
missing or the empty string, produce no outbound frame and no port
call, and the loop stays ready for the next frame. -/
theorem empty_payload_ignored (env : Env) (sid : String)
    (fields : List (String × Json)) :
    (getField fields "type" = some (Json.str "audio_data") →
      (getField fields "audio" = none ∨ getField fields "audio" = some (Json.str "")) →
      handleFrame env sid (Inbound.frame (Json.obj fields))
        = { sent := [], calls := [], outcome := StepOutcome.ok }) ∧
    (getField fields "type" = some (Json.str "voice_message") →
      (getField fields "message" = none ∨ getField fields "message" = some (Json.str "")) →
      handleFrame env sid (Inbound.frame (Json.obj fields))
        = { sent := [], calls := [], outcome := StepOutcome.ok }) := by
  constructor
  · intro ht ha
    rcases ha with h | h <;> simp [handleFrame, ht, h, isTypeTag, Json.truthy]
  · intro ht hm
    rcases hm with h | h <;> simp [handleFrame, ht, h, isTypeTag, Json.truthy]

/-- Witness for C10: an empty `audio` string and a missing `message`
field are both silently ignored. -/
theorem empty_payload_ignored_witness :
    handleFrame envBase "sid0"
      (Inbound.frame (Json.obj [("type", Json.str "audio_data"), ("audio", Json.str "")]))
      = { sent := [], calls := [], outcome := StepOutcome.ok } ∧
    handleFrame envBase "sid0" (Inbound.frame (Json.obj [("type", Json.str "voice_message")]))
      = { sent := [], calls := [], outcome := StepOutcome.ok } :=
  ⟨(empty_payload_ignored envBase "sid0" _).1 rfl (Or.inr rfl),
   (empty_payload_ignored envBase "sid0" _).2 rfl (Or.inl rfl)⟩

/-- **C4**: when the completion call succeeds but synthesis yields empty
bytes, the client still receives an `ai_response` frame carrying the
(stripped) reply text with `audio` equal to the empty string - on the
text path and on the audio path alike. -/
theorem synthesis_failure_empty_audio (env : Env) (sid : String)
    (fields : List (String × Json)) :
    (∀ m r, getField fields "type" = some (Json.str "voice_message") →
      getField fields "message" = some (Json.str m) → m ≠ "" →
      env.clientAvailable = true →
      env.complete (buildMessages env sid (Json.str m)) = Except.ok r →
      env.tts (pyStrip r) = Except.ok [] →
      (handleFrame env sid (Inbound.frame (Json.obj fields))).sent
        = [{ type := "ai_response", transcription := none,
             message := some (pyStrip r), audio := some "",
             session_id := sid, timestamp := some env.now }]) ∧
    (∀ a bytes r, getField fields "type" = some (Json.str "audio_data") →
      getField fields "audio" = some (Json.str a) → a ≠ "" →
      env.b64decode a = Except.ok bytes →
      (transcribe_audio env bytes).1 ≠ "" →
      pyStartsWith (transcribe_audio env bytes).1 "I'm sorry" = false →
      env.clientAvailable = true →
      env.complete (buildMessages env sid (Json.str (transcribe_audio env bytes).1))
        = Except.ok r →
      env.tts (pyStrip r) = Except.ok [] →
      (handleFrame env sid (Inbound.frame (Json.obj fields))).sent
        = [{ type := "ai_response",
             transcription := some (transcribe_audio env bytes).1,
             message := some (pyStrip r), audio := some "",
             session_id := sid, timestamp := some env.now }]) := by
  constructor
  · intro m r ht hm hmne hc hok htts
    simp [handleFrame, get_ai_response_async, generate_speech,
          ht, hm, isTypeTag, Json.truthy, Json.sliceable, hmne, hc, hok, htts]
  · intro a bytes r ht ha hane hdec htne htp hc hok htts
    simp [handleFrame, get_ai_response_async, generate_speech,
          ht, ha, isTypeTag, Json.truthy, Json.sliceable, hane, hdec, htne, htp,
          hc, hok, htts]

/-- Witness for C4 on the text path with a synthesis call returning
empty bytes. -/
theorem synthesis_failure_empty_audio_witness :
    (handleFrame envNoSpeech "sid0"
        (Inbound.frame (Json.obj
          [("type", Json.str "voice_message"), ("message", Json.str "Hi")]))).sent
      = [{ type := "ai_response", transcription := none,
           message := some (pyStrip "Hi!"), audio := some "",
           session_id := "sid0", timestamp := some envNoSpeech.now }] :=
  (synthesis_failure_empty_audio envNoSpeech "sid0" _).1 "Hi" "Hi!"
    rfl rfl (by decide) rfl rfl rfl

/-- **C1** (amended): when the completion call raises, the
voice-message respond path does NOT produce an `error` event:
`get_ai_response_async` swallows the exception and returns an apology
string naming the cause, and the handler proceeds as on success -
history append and the synthesis port are still invoked, and one normal
`ai_response` frame whose message is that apology is sent. -/
theorem completion_failure_degraded_reply (env : Env) (sid : String)
    (fields : List (String × Json)) (m e : String)
    (ht : getField fields "type" = some (Json.str "voice_message"))
    (hm : getField fields "message" = some (Json.str m)) (hmne : m ≠ "")
    (hc : env.clientAvailable = true)
    (hfail : env.complete (buildMessages env sid (Json.str m)) = Except.error e) :
    ((handleFrame env sid (Inbound.frame (Json.obj fields))).sent.map Outbound.type
        = ["ai_response"]) ∧
    ((handleFrame env sid (Inbound.frame (Json.obj fields))).sent.map Outbound.message
        = [some ("I'm sorry, I encountered an error: " ++ e)]) ∧
    ((handleFrame env sid (Inbound.frame (Json.obj fields))).sent.map Outbound.session_id
        = [sid]) ∧
    PortCall.synthesizeCall ∈ (handleFrame env sid (Inbound.frame (Json.obj fields))).calls ∧
    PortCall.appendCall ∈ (handleFrame env sid (Inbound.frame (Json.obj fields))).calls := by
  refine ⟨?_, ?_, ?_, ?_, ?_⟩ <;>
    simp [handleFrame, get_ai_response_async, generate_speech,
          ht, hm, isTypeTag, Json.truthy, Json.sliceable, hmne, hc, hfail]

/-- Witness for the amended C1 with a concrete raising completion
call. -/
theorem completion_failure_degraded_reply_witness :
    ((handleFrame envCfail "sid1"
        (Inbound.frame (Json.obj
          [("type", Json.str "voice_message"), ("message", Json.str "Hi")]))).sent.map
        Outbound.type = ["ai_response"]) ∧
    ((handleFrame envCfail "sid1"
        (Inbound.frame (Json.obj
          [("type", Json.str "voice_message"), ("message", Json.str "Hi")]))).sent.map
        Outbound.message = [some ("I'm sorry, I encountered an error: " ++ "boom")]) ∧
    ((handleFrame envCfail "sid1"
        (Inbound.frame (Json.obj
          [("type", Json.str "voice_message"), ("message", Json.str "Hi")]))).sent.map
        Outbound.session_id = ["sid1"]) ∧
    PortCall.synthesizeCall ∈ (handleFrame envCfail "sid1"
        (Inbound.frame (Json.obj
          [("type", Json.str "voice_message"), ("message", Json.str "Hi")]))).calls ∧
    PortCall.appendCall ∈ (handleFrame envCfail "sid1"
        (Inbound.frame (Json.obj
          [("type", Json.str "voice_message"), ("message", Json.str "Hi")]))).calls :=
  completion_failure_degraded_reply envCfail "sid1" _ "Hi" "boom"
    rfl rfl (by decide) rfl rfl

/-- Counterexample to C1 as stated: with a completion call that raises,
the handler sends an `ai_response` frame, not an `error` frame, and the
synthesis port IS called for the exchange. -/
theorem completion_failure_cex :
    ((handleFrame envCfail "sid0" voiceHiFrame).sent.map Outbound.type
        = ["ai_response"]) ∧
    ¬((handleFrame envCfail "sid0" voiceHiFrame).sent.map Outbound.type = ["error"]) ∧
    PortCall.synthesizeCall ∈ (handleFrame envCfail "sid0" voiceHiFrame).calls := by
  decide

/-- The dispatch on a parsed JSON object never ends the loop: every
branch of the handler yields the `ok` outcome. -/
theorem handleFrame_obj_outcome (env : Env) (sid : String)
    (fields : List (String × Json)) :
    (handleFrame env sid (Inbound.frame (Json.obj fields))).outcome
      = StepOutcome.ok := by
  unfold handleFrame
  dsimp only
  repeat' split
  all_goals rfl

/-- **C2** (amended): the dispatch below the connection-handler boundary
ends the per-connection loop in exactly one case beyond a transport
disconnect - a frame that parses as JSON but is not a JSON object, where
`message_data.get("type")` raises `AttributeError` and only
`json.JSONDecodeError` is caught. Every other inbound frame, malformed
text included, leaves the loop running. -/
theorem crash_iff_nonobject_frame (env : Env) (sid : String) (i : Inbound) :
    (handleFrame env sid i).outcome.isCrash = true ↔
    ∃ j, i = Inbound.frame j ∧ j.isObj = false := by
  cases i with
  | malformed => simp [handleFrame, StepOutcome.isCrash]
  | frame j =>
      cases j with
      | obj fields =>
          rw [handleFrame_obj_outcome]
          simp [StepOutcome.isCrash, Json.isObj]
      | null => simp [handleFrame, StepOutcome.isCrash, Json.isObj]
      | bool b => simp [handleFrame, StepOutcome.isCrash, Json.isObj]
      | num n => simp [handleFrame, StepOutcome.isCrash, Json.isObj]
      | str s => simp [handleFrame, StepOutcome.isCrash, Json.isObj]
      | arr elems => simp [handleFrame, StepOutcome.isCrash, Json.isObj]

/-- Counterexample to C2 as stated: the frame `5` parses as JSON yet
ends the per-connection loop abnormally (uncaught `AttributeError`),
which is not the transport-disconnect ending. -/
theorem nonobject_frame_cex :
    (runLoop envBase "sid0" [ConnEvent.recv (Inbound.frame (Json.num 5))]).2
      = LoopEnd.crashed "AttributeError: int" ∧
    LoopEnd.crashed "AttributeError: int" ≠ LoopEnd.disconnected := by
  constructor
  · rfl
  · decide

end VoiceWS
